import Mathlib

/-!
Shallow embedding of the browser-tracker extension's session/time-accounting
engine: the background service worker's tab tracker, visit aggregator,
heartbeat channel and focus-timer (pomodoro) handlers, together with the
content-script-facing message handler.  Pure JS functions are translated to
Lean functions; handler effects (session maps, persisted records, scheduled
alarms) are made explicit as values returned by the handler functions.
Times are `Int` milliseconds; JS `Map` objects are association lists with
JS `Map` get/set/delete semantics.
-/

namespace BrowserTracker

/-! ## String primitives modelling the JS string operations the source uses -/

/-- JS `s.startsWith(pat)`. -/
def jsStartsWith (s pat : String) : Bool :=
  pat.data.isPrefixOf s.data

/-- Core of JS `s.replace(pat, "")` with a string pattern: remove only the
first occurrence of `pat`, scanning left to right. -/
def removeFirstOcc : List Char → List Char → List Char
  | [], _ => []
  | c :: rest, pat =>
    if pat.isPrefixOf (c :: rest) then (c :: rest).drop pat.length
    else c :: removeFirstOcc rest pat

/-- JS `s.replace(pat, "")` (string pattern, empty replacement). -/
def jsReplaceFirst (s pat : String) : String :=
  String.mk (removeFirstOcc s.data pat.data)

/-- Does `pat` occur as a contiguous sublist? -/
def containsSub : List Char → List Char → Bool
  | [], pat => pat.isEmpty
  | c :: rest, pat => pat.isPrefixOf (c :: rest) || containsSub rest pat

/-- JS `s.includes(pat)`. -/
def strIncludes (s pat : String) : Bool :=
  containsSub s.data pat.data

/-! ## DomainClassifier (`UsageTracker.extractDomain`, `isDomainExcluded`)

`new URL(url)` is a host-platform primitive; its outcome (a parsed hostname,
or a parse failure that throws into the `catch` branch) is passed in as a
`ParseOutcome` argument. -/

inductive ParseOutcome where
  | hostname (h : String)
  | failure
deriving DecidableEq

/-- `UsageTracker.extractDomain` (background worker, also duplicated in the
test file): fixed sentinel for the four internal schemes, otherwise the
parsed hostname with `replace('www.', '')` applied; `'unknown'` when the
URL constructor throws. -/
def extractDomain (url : String) (parsed : ParseOutcome) : String :=
  if jsStartsWith url "chrome://" then "chrome://"
  else if jsStartsWith url "chrome-extension://" then "chrome-extension://"
  else if jsStartsWith url "about:" then "about:"
  else if jsStartsWith url "file://" then "file://"
  else
    match parsed with
    | ParseOutcome.hostname h => jsReplaceFirst h "www."
    | ParseOutcome.failure => "unknown"

/-- `UsageTracker.isDomainExcluded`: excluded iff the domain contains one of
the four scheme sentinels or is the empty string. -/
def isDomainExcluded (domain : String) : Bool :=
  ["chrome://", "chrome-extension://", "about:", "file://"].any
    (fun excluded => strIncludes domain excluded || domain == "")

/-! ### Helper lemmas about the replace-first operation -/

theorem removeFirstOcc_of_not_contains (s pat : List Char)
    (h : containsSub s pat = false) : removeFirstOcc s pat = s := by
  induction s with
  | nil => rfl
  | cons c rest ih =>
    simp only [containsSub, Bool.or_eq_false_iff] at h
    simp [removeFirstOcc, h.1, ih h.2]

theorem removeFirstOcc_of_isPrefixOf (s pat : List Char)
    (h : pat.isPrefixOf s = true) : removeFirstOcc s pat = s.drop pat.length := by
  cases s with
  | nil =>
    have : pat = [] := by
      cases pat with
      | nil => rfl
      | cons p ps => simp [List.isPrefixOf] at h
    simp [removeFirstOcc, this]
  | cons c rest => simp [removeFirstOcc, h]

/-- Claim C4, counterexample: classification does not remove only a leading
"www." label.  The hostname "awww.example.com" does not begin with "www."
yet is changed (to "aexample.com"), and the "www."-prefixed hostname
"www.www.com" and its bare form "www.com" classify to the different strings
"www.com" and "com". -/
theorem extractDomain_replaces_first_occurrence :
    extractDomain "https://awww.example.com/" (ParseOutcome.hostname "awww.example.com")
      = "aexample.com" ∧
    jsStartsWith "awww.example.com" "www." = false ∧
    extractDomain "https://awww.example.com/" (ParseOutcome.hostname "awww.example.com")
      ≠ "awww.example.com" ∧
    extractDomain "https://www.www.com/" (ParseOutcome.hostname "www.www.com") = "www.com" ∧
    extractDomain "https://www.com/" (ParseOutcome.hostname "www.com") = "com" := by
  refine ⟨by decide, by decide, by decide, by decide, by decide⟩

/-- Claim C4, amended: for an address that is not of one of the four internal
schemes and parses to hostname `h`, classify returns `h` with the first
occurrence of the substring "www." removed (anywhere, not only as a leading
label).  A hostname not containing "www." is returned unchanged, and a
hostname beginning with "www." classifies to the rest after those four
characters (its bare form). -/
theorem extractDomain_ok (url hst : String)
    (h1 : jsStartsWith url "chrome://" = false)
    (h2 : jsStartsWith url "chrome-extension://" = false)
    (h3 : jsStartsWith url "about:" = false)
    (h4 : jsStartsWith url "file://" = false) :
    extractDomain url (ParseOutcome.hostname hst) = jsReplaceFirst hst "www." ∧
    (strIncludes hst "www." = false →
      extractDomain url (ParseOutcome.hostname hst) = hst) ∧
    (jsStartsWith hst "www." = true →
      extractDomain url (ParseOutcome.hostname hst) = String.mk (hst.data.drop 4)) := by
  have hbase : extractDomain url (ParseOutcome.hostname hst) = jsReplaceFirst hst "www." := by
    simp [extractDomain, h1, h2, h3, h4]
  refine ⟨hbase, ?_, ?_⟩
  · intro hno
    rw [hbase]
    unfold jsReplaceFirst
    rw [removeFirstOcc_of_not_contains _ _ hno]
  · intro hpre
    rw [hbase]
    unfold jsReplaceFirst
    rw [removeFirstOcc_of_isPrefixOf _ _ hpre]
    have hlen : ("www." : String).data.length = 4 := rfl
    rw [hlen]

/-- Witness for `extractDomain_ok` at a concrete ordinary address. -/
theorem extractDomain_ok_witness :
    extractDomain "https://www.google.com/search" (ParseOutcome.hostname "www.google.com")
        = jsReplaceFirst "www.google.com" "www." ∧
    extractDomain "https://www.google.com/search" (ParseOutcome.hostname "www.google.com")
        = String.mk ("www.google.com".data.drop 4) := by
  have h := extractDomain_ok "https://www.google.com/search" "www.google.com"
    (by decide) (by decide) (by decide) (by decide)
  exact ⟨h.1, h.2.2 (by decide)⟩

/-! ## JS `Map` operations (association lists, JS `Map` semantics) -/

/-- JS `map.get(k)` (`undefined` becomes `none`). -/
def mapGet {κ α : Type} [DecidableEq κ] (m : List (κ × α)) (k : κ) : Option α :=
  match m with
  | [] => none
  | (k1, v) :: rest => if k1 = k then some v else mapGet rest k

/-- JS `map.set(k, v)`: replace the entry for `k` in place, or append. -/
def mapSet {κ α : Type} [DecidableEq κ] (m : List (κ × α)) (k : κ) (v : α) :
    List (κ × α) :=
  match m with
  | [] => [(k, v)]
  | (k1, v1) :: rest => if k1 = k then (k, v) :: rest else (k1, v1) :: mapSet rest k v

/-- JS `map.delete(k)`. -/
def mapDelete {κ α : Type} [DecidableEq κ] (m : List (κ × α)) (k : κ) :
    List (κ × α) :=
  match m with
  | [] => []
  | (k1, v1) :: rest => if k1 = k then mapDelete rest k else (k1, v1) :: mapDelete rest k

theorem mapGet_mapSet {κ α : Type} [DecidableEq κ] (m : List (κ × α)) (k : κ) (v : α) :
    mapGet (mapSet m k v) k = some v := by
  induction m with
  | nil => simp [mapSet, mapGet]
  | cons p rest ih =>
    obtain ⟨k1, v1⟩ := p
    by_cases h : k1 = k
    · simp [mapSet, mapGet, h]
    · simp [mapSet, mapGet, h, ih]

/-! ## TabFocusTracker (`UsageTracker` tab-session state and handlers)

`Date.now()` readings are passed in as the `now` argument; the outcome of
the asynchronous `chrome.tabs.get` / `chrome.tabs.query` lookups is passed
in as an `Option` argument.  A handler returns the successor tracker state
together with the commits it forwards to `saveVisitData`. -/

/-- One live `TrackingSession` as built by `startTrackingTab`. -/
structure TrackingData where
  tabId : Nat
  url : String
  domain : String
  startTime : Int
  lastUpdate : Int
deriving DecidableEq

/-- One `(domain, duration, url)` increment forwarded to `saveVisitData`. -/
structure Commit where
  domain : String
  duration : Int
  url : String
deriving DecidableEq

/-- The `UsageTracker` fields the tab-session handlers touch. -/
structure TrackerState where
  activeTabs : List (Nat × TrackingData)
  isTrackingEnabled : Bool
deriving DecidableEq

/-- `UsageTracker.startTrackingTab`: no-op when tracking is disabled, the
url is falsy, or the classified domain is excluded; otherwise stores a new
session for the tab (replacing any session of the same tab). -/
def startTrackingTab (s : TrackerState) (tabId : Nat) (url : String) (now : Int)
    (parsed : ParseOutcome) : TrackerState :=
  if !s.isTrackingEnabled || url == "" then s
  else
    let domain := extractDomain url parsed
    if isDomainExcluded domain then s
    else { s with activeTabs := mapSet s.activeTabs tabId ⟨tabId, url, domain, now, now⟩ }

/-- `UsageTracker.stopTrackingTab`: no-op without a live session; otherwise
removes the session and forwards one commit exactly when the duration
exceeds 1000 ms. -/
def stopTrackingTab (s : TrackerState) (tabId : Nat) (now : Int) :
    TrackerState × Option Commit :=
  match mapGet s.activeTabs tabId with
  | none => (s, none)
  | some td =>
    let duration := now - td.startTime
    let c := if duration > 1000 then some (Commit.mk td.domain duration td.url) else none
    ({ s with activeTabs := mapDelete s.activeTabs tabId }, c)

/-- Loop body of `stopTrackingAllTabs` over a snapshot of the key set. -/
def stopAllAux (s : TrackerState) (keys : List Nat) (now : Int) :
    TrackerState × List Commit :=
  match keys with
  | [] => (s, [])
  | k :: rest =>
    let r1 := stopTrackingTab s k now
    let r2 := stopAllAux r1.1 rest now
    (r2.1, r1.2.toList ++ r2.2)

/-- `UsageTracker.stopTrackingAllTabs`. -/
def stopTrackingAllTabs (s : TrackerState) (now : Int) : TrackerState × List Commit :=
  stopAllAux s (s.activeTabs.map Prod.fst) now

/-- `UsageTracker.handleTabActivated`: stops every live session, then starts
tracking the activated tab provided the `chrome.tabs.get` lookup returned a
tab with a truthy url. -/
def handleTabActivated (s : TrackerState) (tabId : Nat) (tabUrl : Option String)
    (now : Int) (parsed : ParseOutcome) : TrackerState × List Commit :=
  let r := stopTrackingAllTabs s now
  match tabUrl with
  | none => r
  | some url =>
    if url == "" then r
    else (startTrackingTab r.1 tabId url now parsed, r.2)

/-- `UsageTracker.handleTabUpdated`: when a navigation reports status
`'complete'` with a truthy url, stops tracking that tab (only that tab) and
starts a fresh session for it. -/
def handleTabUpdated (s : TrackerState) (tabId : Nat) (statusComplete : Bool)
    (tabUrl : Option String) (now : Int) (parsed : ParseOutcome) :
    TrackerState × Option Commit :=
  match statusComplete, tabUrl with
  | true, some url =>
    if url == "" then (s, none)
    else
      let r := stopTrackingTab s tabId now
      (startTrackingTab r.1 tabId url now parsed, r.2)
  | _, _ => (s, none)

/-- `UsageTracker.handleTabRemoved`. -/
def handleTabRemoved (s : TrackerState) (tabId : Nat) (now : Int) :
    TrackerState × Option Commit :=
  stopTrackingTab s tabId now

/-- `UsageTracker.handleWindowFocusChanged`: on losing focus to no window,
stops everything; on focusing a window whose active-tab query returns a tab,
stops everything and starts tracking that tab; otherwise does nothing. -/
def handleWindowFocusChanged (s : TrackerState) (windowIdIsNone : Bool)
    (queryResult : Option (Nat × String)) (now : Int) (parsed : ParseOutcome) :
    TrackerState × List Commit :=
  if windowIdIsNone then stopTrackingAllTabs s now
  else
    match queryResult with
    | none => (s, [])
    | some (tid, url) =>
      let r := stopTrackingAllTabs s now
      (startTrackingTab r.1 tid url now parsed, r.2)

/-- Claim C1: evaluating the handlers at the failing input.  Tab 1 is active
and tracked; a background tab 2 then completes a navigation.
`handleTabUpdated` force-stops only tab 2's (non-existent) session before
starting a new one, so afterwards the map of active sessions holds two live
sessions — the single-focus invariant does not survive the
tab-navigation-completing step. -/
theorem single_session_violated :
    (handleTabUpdated
        (handleTabActivated ⟨[], true⟩ 1 (some "https://a.com/") 0
          (ParseOutcome.hostname "a.com")).1
        2 true (some "https://b.com/") 5000 (ParseOutcome.hostname "b.com")).1.activeTabs.length
      = 2 ∧
    ¬ (handleTabUpdated
        (handleTabActivated ⟨[], true⟩ 1 (some "https://a.com/") 0
          (ParseOutcome.hostname "a.com")).1
        2 true (some "https://b.com/") 5000 (ParseOutcome.hostname "b.com")).1.activeTabs.length ≤ 1 := by
  refine ⟨by decide, by decide⟩

/-- Claim C6: stopping a live session of duration `d = now − startTime`
forwards exactly one commit of exactly `d` when `d > 1000` ms and none when
`d ≤ 1000` ms, and stopping a tab with no live session is a no-op. -/
theorem stop_tracking_commit_ok (s : TrackerState) (tabId : Nat) (td : TrackingData)
    (now : Int) :
    (mapGet s.activeTabs tabId = some td →
      (stopTrackingTab s tabId now).2
        = (if now - td.startTime > 1000
            then some (Commit.mk td.domain (now - td.startTime) td.url)
            else none)) ∧
    (mapGet s.activeTabs tabId = none → stopTrackingTab s tabId now = (s, none)) := by
  constructor
  · intro h
    simp [stopTrackingTab, h]
  · intro h
    simp [stopTrackingTab, h]

/-- Witness for `stop_tracking_commit_ok`: a 5000 ms session commits 5000 ms;
an absent session is a no-op. -/
theorem stop_tracking_commit_ok_witness :
    (stopTrackingTab ⟨[(7, ⟨7, "https://a.com/", "a.com", 0, 0⟩)], true⟩ 7 5000).2
      = (if (5000 : Int) - 0 > 1000 then some (Commit.mk "a.com" (5000 - 0) "https://a.com/") else none) ∧
    stopTrackingTab ⟨[(7, ⟨7, "https://a.com/", "a.com", 0, 0⟩)], true⟩ 9 5000
      = (⟨[(7, ⟨7, "https://a.com/", "a.com", 0, 0⟩)], true⟩, none) := by
  have h := stop_tracking_commit_ok ⟨[(7, ⟨7, "https://a.com/", "a.com", 0, 0⟩)], true⟩ 7
    ⟨7, "https://a.com/", "a.com", 0, 0⟩ 5000
  have h9 := stop_tracking_commit_ok ⟨[(7, ⟨7, "https://a.com/", "a.com", 0, 0⟩)], true⟩ 9
    ⟨7, "https://a.com/", "a.com", 0, 0⟩ 5000
  exact ⟨h.1 (by decide), h9.2 (by decide)⟩

/-! ## VisitAggregator (`UsageTracker.saveVisitData`, `updateStatistics`)

`saveVisitData` is `await storage.get(key)`, a pure in-memory update of the
day's record for the domain, then `await storage.set`.  The pure update is
`applySaveVisit`; the surrounding read/write with its suspension points is
modelled below as a two-phase process so that the interleaving of two
in-flight commits is explicit. -/

/-- One domain's `DailyVisitRecord` (`visits[domain]`). -/
structure DomainRecord where
  totalTime : Int
  visitCount : Int
  urls : List (String × Int)
deriving DecidableEq

/-- The in-memory mutation `saveVisitData` performs between its storage read
and its storage write (source lines 181–197): initialise the record when
absent, add the duration to `totalTime` and to the url sub-total, and count
one visit. -/
def applySaveVisit (stored : Option DomainRecord) (duration : Int) (url : String) :
    DomainRecord :=
  let rec0 := stored.getD ⟨0, 0, []⟩
  let prevUrl := (mapGet rec0.urls url).getD 0
  { totalTime := rec0.totalTime + duration
    visitCount := rec0.visitCount + 1
    urls := mapSet rec0.urls url (prevUrl + duration) }

/-- Per-domain entry of the persisted `statistics` record. -/
structure DomainStat where
  totalTime : Int
  visitCount : Int
deriving DecidableEq

/-- The persisted all-time `statistics` record. -/
structure Statistics where
  totalTime : Int
  totalVisits : Int
  domains : List (String × DomainStat)
  lastUpdated : Int
deriving DecidableEq

/-- The in-memory mutation `updateStatistics` performs between its storage
read and its storage write (source lines 212–231). -/
def applyUpdateStatistics (stored : Option Statistics) (domain : String)
    (duration : Int) (now : Int) : Statistics :=
  let st0 := stored.getD ⟨0, 0, [], now⟩
  let d0 := (mapGet st0.domains domain).getD ⟨0, 0⟩
  { totalTime := st0.totalTime + duration
    totalVisits := st0.totalVisits + 1
    domains := mapSet st0.domains domain ⟨d0.totalTime + duration, d0.visitCount + 1⟩
    lastUpdated := now }

/-- Progress of one in-flight `saveVisitData` call against the day's record
for one domain: not yet read, read a snapshot (suspended at the `await`
between `storage.get` and `storage.set`), or written back. -/
inductive RMWPhase where
  | ready
  | readDone (snapshot : Option DomainRecord)
  | written
deriving DecidableEq

/-- The `(duration, url)` argument pair of one `saveVisitData` call. -/
structure VisitCall where
  duration : Int
  url : String
deriving DecidableEq

/-- One micro-step of an in-flight `saveVisitData`: the `ready → readDone`
step is the `storage.get`, the `readDone → written` step applies the
in-memory mutation to the snapshot it read and performs the `storage.set`. -/
def rmwStep (store : Option DomainRecord) (c : VisitCall) (ph : RMWPhase) :
    Option DomainRecord × RMWPhase :=
  match ph with
  | RMWPhase.ready => (store, RMWPhase.readDone store)
  | RMWPhase.readDone snap => (some (applySaveVisit snap c.duration c.url), RMWPhase.written)
  | RMWPhase.written => (store, RMWPhase.written)

/-- Two in-flight `saveVisitData` calls against the same date+domain key,
sharing the persisted store. -/
structure RMWSystem where
  store : Option DomainRecord
  ph1 : RMWPhase
  ph2 : RMWPhase
deriving DecidableEq

/-- The event loop grants the next suspension resumption to call 1 (`true`)
or call 2 (`false`). -/
def sysStep (c1 c2 : VisitCall) (sys : RMWSystem) (pick : Bool) : RMWSystem :=
  if pick then
    let r := rmwStep sys.store c1 sys.ph1
    { sys with store := r.1, ph1 := r.2 }
  else
    let r := rmwStep sys.store c2 sys.ph2
    { sys with store := r.1, ph2 := r.2 }

/-- Run both in-flight calls under a given scheduling of resumptions. -/
def runSchedule (c1 c2 : VisitCall) (sys : RMWSystem) : List Bool → RMWSystem
  | [] => sys
  | b :: rest => runSchedule c1 c2 (sysStep c1 c2 sys b) rest

/-- Claim C3, counterexample: `saveVisitData` has no per-key queue or mutex,
so two in-flight commits (2000 ms and 3000 ms) to the same date+domain
record may both read before either writes; both then complete, yet the final
`totalTime` is 3000, not 2000 + 3000 — the first increment is lost. -/
theorem commit_interleaving_loses_increment :
    ((runSchedule ⟨2000, "u1"⟩ ⟨3000, "u2"⟩ ⟨none, RMWPhase.ready, RMWPhase.ready⟩
        [true, false, true, false]).ph1 = RMWPhase.written) ∧
    ((runSchedule ⟨2000, "u1"⟩ ⟨3000, "u2"⟩ ⟨none, RMWPhase.ready, RMWPhase.ready⟩
        [true, false, true, false]).ph2 = RMWPhase.written) ∧
    ((runSchedule ⟨2000, "u1"⟩ ⟨3000, "u2"⟩ ⟨none, RMWPhase.ready, RMWPhase.ready⟩
        [true, false, true, false]).store.map DomainRecord.totalTime = some 3000) ∧
    (3000 : Int) ≠ 2000 + 3000 := by
  refine ⟨by decide, by decide, by decide, by decide⟩

/-- Claim C3, amended: the code applies commits by unserialized
read-modify-write, so increments are preserved only when the two in-flight
commits do not overlap.  Under the serial schedule (call 1 reads and writes
before call 2 starts) the final `totalTime` is the prior total plus both
increments and `visitCount` grows by two. -/
theorem visits_serial_commits_sum (stored : Option DomainRecord) (c1 c2 : VisitCall) :
    ((runSchedule c1 c2 ⟨stored, RMWPhase.ready, RMWPhase.ready⟩
        [true, true, false, false]).store.map DomainRecord.totalTime
      = some ((stored.map DomainRecord.totalTime).getD 0 + c1.duration + c2.duration)) ∧
    ((runSchedule c1 c2 ⟨stored, RMWPhase.ready, RMWPhase.ready⟩
        [true, true, false, false]).store.map DomainRecord.visitCount
      = some ((stored.map DomainRecord.visitCount).getD 0 + 2)) := by
  cases stored with
  | none =>
    constructor
    · simp [runSchedule, sysStep, rmwStep, applySaveVisit]
    · simp [runSchedule, sysStep, rmwStep, applySaveVisit]
  | some rec0 =>
    constructor
    · simp [runSchedule, sysStep, rmwStep, applySaveVisit]
    · simp [runSchedule, sysStep, rmwStep, applySaveVisit]
      omega

/-! ## HeartbeatDedupEngine (`pageEvent` message handler, source lines 322–353)

`tracker.sessionData` is the per-tab heartbeat cursor map.  The sender's
`sender.tab.id` is `none` for a sender without a tab; JS treats a `0` id as
falsy too, which the handler's `!tabId` guard inherits. -/

/-- Per-tab heartbeat cursor (`tracker.sessionData` entries). -/
structure HeartbeatSession where
  lastTimestamp : Int
  url : String
deriving DecidableEq

/-- What the `pageEvent` branch of the message listener produces: the new
cursor map, the commit (if any) forwarded to `saveVisitData`, and the `ok`
field of the response. -/
structure PageEventResult where
  sessionData : List (Nat × HeartbeatSession)
  commit : Option Commit
  ok : Bool
deriving DecidableEq

/-- The `pageEvent` branch of `chrome.runtime.onMessage`: refuse senders
without a (truthy) tab id and excluded domains; store a fresh baseline on
first contact or url change without committing; otherwise commit the delta
clamped to [0, 60000] exactly when it reaches 5000 ms, and always overwrite
the cursor with the incoming timestamp and url. -/
def handlePageEvent (st : List (Nat × HeartbeatSession)) (tabId? : Option Nat)
    (url : String) (ts : Int) (parsed : ParseOutcome) : PageEventResult :=
  let domain := extractDomain url parsed
  match tabId? with
  | none => ⟨st, none, false⟩
  | some tabId =>
    if tabId == 0 || isDomainExcluded domain then ⟨st, none, false⟩
    else
      match mapGet st tabId with
      | none => ⟨mapSet st tabId ⟨ts, url⟩, none, true⟩
      | some prev =>
        if prev.url ≠ url then ⟨mapSet st tabId ⟨ts, url⟩, none, true⟩
        else
          let delta := max 0 (min (ts - prev.lastTimestamp) 60000)
          ⟨mapSet st tabId ⟨ts, url⟩,
            if delta ≥ 5000 then some (Commit.mk domain delta url) else none,
            true⟩

/-- Claim C5: for a ping on a tab with a stored cursor of the same url, the
handler commits exactly `max 0 (min (ts − last) 60000)` iff that delta
reaches 5000 ms and overwrites the cursor with `{ts, url}`; a ping whose url
differs from the cursor, or with no cursor, stores the new baseline and
never commits. -/
theorem heartbeat_ping_ok (st : List (Nat × HeartbeatSession)) (tabId : Nat)
    (prev : HeartbeatSession) (url : String) (ts : Int) (parsed : ParseOutcome)
    (hpos : 0 < tabId)
    (hexc : isDomainExcluded (extractDomain url parsed) = false) :
    (mapGet st tabId = some prev → prev.url = url →
      handlePageEvent st (some tabId) url ts parsed
        = ⟨mapSet st tabId ⟨ts, url⟩,
            if max 0 (min (ts - prev.lastTimestamp) 60000) ≥ 5000
              then some (Commit.mk (extractDomain url parsed)
                          (max 0 (min (ts - prev.lastTimestamp) 60000)) url)
              else none,
            true⟩) ∧
    (mapGet st tabId = some prev → prev.url ≠ url →
      handlePageEvent st (some tabId) url ts parsed
        = ⟨mapSet st tabId ⟨ts, url⟩, none, true⟩) ∧
    (mapGet st tabId = none →
      handlePageEvent st (some tabId) url ts parsed
        = ⟨mapSet st tabId ⟨ts, url⟩, none, true⟩) := by
  have hz : (tabId == 0) = false := by
    simp [Nat.pos_iff_ne_zero.mp hpos]
  refine ⟨?_, ?_, ?_⟩
  · intro hget hurl
    simp [handlePageEvent, hz, hexc, hget, hurl]
  · intro hget hurl
    simp [handlePageEvent, hz, hexc, hget, hurl]
  · intro hget
    simp [handlePageEvent, hz, hexc, hget]

/-- Witness for `heartbeat_ping_ok`: a same-url ping 7000 ms after the
stored cursor commits exactly 7000 ms. -/
theorem heartbeat_ping_ok_witness :
    handlePageEvent [(3, ⟨1000, "https://a.com/x"⟩)] (some 3) "https://a.com/x" 8000
        (ParseOutcome.hostname "a.com")
      = ⟨mapSet [(3, ⟨1000, "https://a.com/x"⟩)] 3 ⟨8000, "https://a.com/x"⟩,
          if max 0 (min ((8000 : Int) - 1000) 60000) ≥ 5000
            then some (Commit.mk (extractDomain "https://a.com/x"
                        (ParseOutcome.hostname "a.com"))
                        (max 0 (min ((8000 : Int) - 1000) 60000)) "https://a.com/x")
            else none,
          true⟩ := by
  have h := heartbeat_ping_ok [(3, ⟨1000, "https://a.com/x"⟩)] 3 ⟨1000, "https://a.com/x"⟩
    "https://a.com/x" 8000 (ParseOutcome.hostname "a.com") (by decide) (by decide)
  exact h.1 (by decide) (by decide)

/-- Claim C10: a `pageEvent` whose sender has no tab id, or whose classified
domain is excluded, is answered `ok := false` with the cursor map untouched
and no commit forwarded; every other `pageEvent` is answered `ok := true`
and leaves the tab's cursor at `{ts, url}`.  (Chrome tab ids are positive;
the handler's JS `!tabId` guard would also refuse a literal id 0.) -/
theorem pageEvent_response_ok (st : List (Nat × HeartbeatSession))
    (tabId? : Option Nat) (url : String) (ts : Int) (parsed : ParseOutcome)
    (hpos : ∀ n, tabId? = some n → 0 < n) :
    ((tabId? = none ∨ isDomainExcluded (extractDomain url parsed) = true) →
      handlePageEvent st tabId? url ts parsed = ⟨st, none, false⟩) ∧
    (∀ n, tabId? = some n → isDomainExcluded (extractDomain url parsed) = false →
      (handlePageEvent st tabId? url ts parsed).ok = true ∧
      mapGet (handlePageEvent st tabId? url ts parsed).sessionData n
        = some ⟨ts, url⟩) := by
  constructor
  · rintro (hnone | hexc)
    · subst hnone
      simp [handlePageEvent]
    · cases tabId? with
      | none => simp [handlePageEvent]
      | some n => simp [handlePageEvent, hexc]
  · intro n hsome hexc
    subst hsome
    have hz : (n == 0) = false := by
      simp [Nat.pos_iff_ne_zero.mp (hpos n rfl)]
    cases hget : mapGet st n with
    | none =>
      constructor
      · simp [handlePageEvent, hz, hexc, hget]
      · simp [handlePageEvent, hz, hexc, hget, mapGet_mapSet]
    | some prev =>
      by_cases hurl : prev.url = url
      · constructor
        · simp [handlePageEvent, hz, hexc, hget, hurl]
        · simp [handlePageEvent, hz, hexc, hget, hurl, mapGet_mapSet]
      · constructor
        · simp [handlePageEvent, hz, hexc, hget, hurl]
        · simp [handlePageEvent, hz, hexc, hget, hurl, mapGet_mapSet]

/-- Witness for `pageEvent_response_ok`: a first-contact ping on tab 5 is
acknowledged and installs the cursor; a ping from a sender without a tab is
refused without touching anything. -/
theorem pageEvent_response_ok_witness :
    handlePageEvent [] none "https://a.com/" 100 (ParseOutcome.hostname "a.com")
      = ⟨[], none, false⟩ ∧
    (handlePageEvent [] (some 5) "https://a.com/" 100 (ParseOutcome.hostname "a.com")).ok
      = true ∧
    mapGet (handlePageEvent [] (some 5) "https://a.com/" 100
        (ParseOutcome.hostname "a.com")).sessionData 5
      = some ⟨100, "https://a.com/"⟩ := by
  have h1 := pageEvent_response_ok ([] : List (Nat × HeartbeatSession)) none
    "https://a.com/" 100 (ParseOutcome.hostname "a.com") (by intro n h; cases h)
  have h2 := pageEvent_response_ok ([] : List (Nat × HeartbeatSession)) (some 5)
    "https://a.com/" 100 (ParseOutcome.hostname "a.com")
    (by intro n h; cases h; decide)
  exact ⟨h1.1 (Or.inl rfl), h2.2 5 rfl (by decide)⟩

/-! ## FocusTimerEngine (pomodoro message handlers and alarm handler)

The persisted `pomodoro` record.  Field order and names follow the
constructor of `UsageTracker`.  The handlers' `Date.now()` reading is the
`now` argument; the `pomodoro-end` alarm is the explicit `Option Int`
result (`some t` = armed at time `t`, `none` = cleared). -/

/-- The persisted `FocusTimerState`. -/
structure Pomodoro where
  mode : String
  isRunning : Bool
  remainingMs : Int
  workMs : Int
  breakMs : Int
  longBreakMs : Int
  sessionsBeforeLong : Nat
  sessionsCompleted : Nat
  lastUpdated : Int
deriving DecidableEq

/-- JS `x || d` on a number that is `0` when falsy (`Int` fields). -/
def jsOrI (x d : Int) : Int :=
  if x = 0 then d else x

/-- JS `x || d` on a number that is `0` when falsy (`Nat` fields). -/
def jsOrN (x d : Nat) : Nat :=
  if x = 0 then d else x

theorem jsOrI_of_ne (x d : Int) (h : x ≠ 0) : jsOrI x d = x := by
  simp [jsOrI, h]

theorem jsOrI_zero_default (x : Int) : jsOrI x 0 = x := by
  by_cases h : x = 0 <;> simp [jsOrI, h]

theorem jsOrN_of_ne (x d : Nat) (h : x ≠ 0) : jsOrN x d = x := by
  simp [jsOrN, h]

theorem jsOrN_zero_default (x : Nat) : jsOrN x 0 = x := by
  by_cases h : x = 0 <;> simp [jsOrN, h]

/-- The `'pomodoro:reset'` message handler: overwrite the stored state with
the fixed defaults `{mode: 'work', isRunning: false, remainingMs:
25*60*1000, sessionsCompleted: 0, lastUpdated: now}` (the spread keeps every
other stored field) and clear the `pomodoro-end` alarm. -/
def pomodoroReset (s : Pomodoro) (now : Int) : Pomodoro × Option Int :=
  ({ s with
      mode := "work"
      isRunning := false
      remainingMs := 25 * 60 * 1000
      sessionsCompleted := 0
      lastUpdated := now }, none)

/-- The `'pomodoro-end'` alarm handler (source lines 408–435): on expiry of
a work segment, count the session and enter a break (the long one every
`sessionsBeforeLong`-th); on expiry of a break enter work; in both cases
start running, stamp `lastUpdated`, and re-arm the alarm after the new
remaining time. -/
def onPomodoroEnd (s : Pomodoro) (now : Int) : Pomodoro × Option Int :=
  let next :=
    if s.mode == "work" then
      let sc := jsOrN s.sessionsCompleted 0 + 1
      let useLong := sc % jsOrN s.sessionsBeforeLong 4 == 0
      { s with
          mode := "break"
          sessionsCompleted := sc
          remainingMs := if useLong then jsOrI s.longBreakMs 900000 else jsOrI s.breakMs 300000
          isRunning := true
          lastUpdated := now }
    else
      { s with
          mode := "work"
          remainingMs := jsOrI s.workMs 1500000
          isRunning := true
          lastUpdated := now }
  (next, some (now + next.remainingMs))

/-- `getPomodoroRemaining` (source lines 437–442): the stored value when not
running, otherwise the stored value minus the wall-clock time since
`lastUpdated`, both deltas clamped to be non-negative. -/
def getPomodoroRemaining (s : Pomodoro) (now : Int) : Int :=
  if s.isRunning = false then s.remainingMs
  else
    let delta := max 0 (now - jsOrI s.lastUpdated now)
    max 0 (jsOrI s.remainingMs 0 - delta)

/-- The `'pomodoro:pause'` message handler: store the live-derived remaining
time, stop running, stamp `lastUpdated`, clear the `pomodoro-end` alarm. -/
def pomodoroPause (s : Pomodoro) (now : Int) : Pomodoro × Option Int :=
  let remaining := getPomodoroRemaining s now
  ({ s with isRunning := false, remainingMs := remaining, lastUpdated := now }, none)

/-- Claim C2, counterexample: with the work duration configured to 30
minutes (1 800 000 ms), reset stores `remainingMs = 1 500 000` — the
hard-coded 25-minute default, not the configured `workMs`. -/
theorem pomodoro_reset_uses_fixed_default :
    (pomodoroReset ⟨"break", true, 111, 1800000, 300000, 900000, 4, 2, 7⟩ 9).1.remainingMs
      = 1500000 ∧
    (⟨"break", true, 111, 1800000, 300000, 900000, 4, 2, 7⟩ : Pomodoro).workMs = 1800000 ∧
    (pomodoroReset ⟨"break", true, 111, 1800000, 300000, 900000, 4, 2, 7⟩ 9).1.remainingMs
      ≠ (⟨"break", true, 111, 1800000, 300000, 900000, 4, 2, 7⟩ : Pomodoro).workMs := by
  refine ⟨by decide, by decide, by decide⟩

/-- Claim C2, amended: reset returns to `{mode: work, isRunning: false,
remainingMs: 1 500 000 (the fixed 25-minute default, which equals `workMs`
only when `workMs` still has its default value), sessionsCompleted: 0}` and
preserves the configured `workMs`, `breakMs`, `longBreakMs` and
`sessionsBeforeLong`. -/
theorem pomodoro_reset_ok (s : Pomodoro) (now : Int) :
    (pomodoroReset s now).1.mode = "work" ∧
    (pomodoroReset s now).1.isRunning = false ∧
    (pomodoroReset s now).1.remainingMs = 1500000 ∧
    (pomodoroReset s now).1.sessionsCompleted = 0 ∧
    (pomodoroReset s now).1.workMs = s.workMs ∧
    (pomodoroReset s now).1.breakMs = s.breakMs ∧
    (pomodoroReset s now).1.longBreakMs = s.longBreakMs ∧
    (pomodoroReset s now).1.sessionsBeforeLong = s.sessionsBeforeLong := by
  refine ⟨rfl, rfl, by norm_num [pomodoroReset], rfl, rfl, rfl, rfl, rfl⟩

/-- Claim C7: when the scheduled expiry fires on a work segment, the session
counter is incremented and the state enters a break whose duration is
`longBreakMs` exactly when the incremented counter is divisible by
`sessionsBeforeLong` and `breakMs` otherwise; on a break segment it enters
work with `remainingMs = workMs`; in both cases it is running, `lastUpdated`
is `now`, and the alarm is re-armed at `now + new remainingMs`.  (The
nonzero hypotheses keep the handler's JS `||` defaults from engaging.) -/
theorem pomodoro_expiry_ok (s : Pomodoro) (now : Int)
    (hW : s.workMs ≠ 0) (hB : s.breakMs ≠ 0) (hL : s.longBreakMs ≠ 0)
    (hS : s.sessionsBeforeLong ≠ 0) :
    (s.mode = "work" →
      (onPomodoroEnd s now).1.sessionsCompleted = s.sessionsCompleted + 1 ∧
      (onPomodoroEnd s now).1.mode = "break" ∧
      (onPomodoroEnd s now).1.remainingMs
        = (if (s.sessionsCompleted + 1) % s.sessionsBeforeLong = 0
            then s.longBreakMs else s.breakMs) ∧
      (onPomodoroEnd s now).1.isRunning = true ∧
      (onPomodoroEnd s now).1.lastUpdated = now ∧
      (onPomodoroEnd s now).2 = some (now + (onPomodoroEnd s now).1.remainingMs)) ∧
    (s.mode = "break" →
      (onPomodoroEnd s now).1.mode = "work" ∧
      (onPomodoroEnd s now).1.remainingMs = s.workMs ∧
      (onPomodoroEnd s now).1.isRunning = true ∧
      (onPomodoroEnd s now).1.lastUpdated = now ∧
      (onPomodoroEnd s now).2 = some (now + (onPomodoroEnd s now).1.remainingMs)) := by
  constructor
  · intro hm
    refine ⟨?_, ?_, ?_, ?_, ?_, rfl⟩ <;>
      simp [onPomodoroEnd, hm, jsOrN_zero_default, jsOrN_of_ne _ _ hS,
        jsOrI_of_ne _ _ hB, jsOrI_of_ne _ _ hL]
  · intro hm
    refine ⟨?_, ?_, ?_, ?_, rfl⟩ <;>
      simp [onPomodoroEnd, hm, jsOrI_of_ne _ _ hW]

/-- Witness for `pomodoro_expiry_ok`: the fourth completed work session ends
in the long break, armed 900 000 ms ahead. -/
theorem pomodoro_expiry_ok_witness :
    (onPomodoroEnd ⟨"work", true, 0, 1500000, 300000, 900000, 4, 3, 50⟩ 100).1.remainingMs
      = 900000 ∧
    (onPomodoroEnd ⟨"work", true, 0, 1500000, 300000, 900000, 4, 3, 50⟩ 100).2
      = some (100 + 900000) := by
  have h := pomodoro_expiry_ok ⟨"work", true, 0, 1500000, 300000, 900000, 4, 3, 50⟩ 100
    (by decide) (by decide) (by decide) (by decide)
  have h1 := (h.1 rfl).2.2.1
  have h2 := (h.1 rfl).2.2.2.2.2
  constructor
  · rw [h1]; decide
  · rw [h2, h1]; decide

/-- Claim C8: the derived remaining time equals the stored `remainingMs`
when the timer is not running and `max 0 (remainingMs − (now − lastUpdated))`
when it is (for a `lastUpdated` stamp that is truthy and not in the
future); pause stores exactly the derived value, stops running, and clears
the pending `pomodoro-end` alarm. -/
theorem pomodoro_pause_remaining_ok (s : Pomodoro) (now : Int)
    (h1 : 0 < s.lastUpdated) (h2 : s.lastUpdated ≤ now) :
    (s.isRunning = false → getPomodoroRemaining s now = s.remainingMs) ∧
    (s.isRunning = true →
      getPomodoroRemaining s now = max 0 (s.remainingMs - (now - s.lastUpdated))) ∧
    (pomodoroPause s now).1.isRunning = false ∧
    (pomodoroPause s now).1.remainingMs = getPomodoroRemaining s now ∧
    (pomodoroPause s now).2 = none := by
  refine ⟨?_, ?_, rfl, rfl, rfl⟩
  · intro h
    simp [getPomodoroRemaining, h]
  · intro h
    have hne : s.lastUpdated ≠ 0 := ne_of_gt h1
    have hmax : max 0 (now - jsOrI s.lastUpdated now) = now - s.lastUpdated := by
      rw [jsOrI_of_ne _ _ hne]
      exact max_eq_right (sub_nonneg.mpr h2)
    simp [getPomodoroRemaining, h, hmax, jsOrI_zero_default]

/-- Witness for `pomodoro_pause_remaining_ok`: a running timer with 10 000 ms
stored 5 ms ago pauses to 9 995 ms with the alarm cleared. -/
theorem pomodoro_pause_remaining_ok_witness :
    getPomodoroRemaining ⟨"work", true, 10000, 1500000, 300000, 900000, 4, 0, 40⟩ 45
      = max 0 ((10000 : Int) - (45 - 40)) ∧
    (pomodoroPause ⟨"work", true, 10000, 1500000, 300000, 900000, 4, 0, 40⟩ 45).2
      = none := by
  have h := pomodoro_pause_remaining_ok
    ⟨"work", true, 10000, 1500000, 300000, 900000, 4, 0, 40⟩ 45 (by decide) (by decide)
  exact ⟨h.2.1 rfl, h.2.2.2.2⟩

/-- A `request.settings` object for `'pomodoro:updateSettings'`: any subset
of the stored record's fields may be present (`{...s, ...request.settings}`
copies every field the patch carries, whatever it is). -/
structure PomodoroPatch where
  mode : Option String := none
  isRunning : Option Bool := none
  remainingMs : Option Int := none
  workMs : Option Int := none
  breakMs : Option Int := none
  longBreakMs : Option Int := none
  sessionsBeforeLong : Option Nat := none
  sessionsCompleted : Option Nat := none
  lastUpdated : Option Int := none
deriving DecidableEq

/-- The `'pomodoro:updateSettings'` message handler: the stored record
spread-merged with the incoming patch, every present patch field winning. -/
def pomodoroUpdateSettings (s : Pomodoro) (p : PomodoroPatch) : Pomodoro :=
  { mode := p.mode.getD s.mode
    isRunning := p.isRunning.getD s.isRunning
    remainingMs := p.remainingMs.getD s.remainingMs
    workMs := p.workMs.getD s.workMs
    breakMs := p.breakMs.getD s.breakMs
    longBreakMs := p.longBreakMs.getD s.longBreakMs
    sessionsBeforeLong := p.sessionsBeforeLong.getD s.sessionsBeforeLong
    sessionsCompleted := p.sessionsCompleted.getD s.sessionsCompleted
    lastUpdated := p.lastUpdated.getD s.lastUpdated }

/-- Claim C9, counterexample: the handler merges every field the patch
carries, so a patch naming `remainingMs` changes the running countdown —
the merge is not limited to the four configuration fields. -/
theorem updateSettings_changes_noncfg_field :
    (pomodoroUpdateSettings ⟨"work", true, 1500000, 1500000, 300000, 900000, 4, 0, 10⟩
        { remainingMs := some 0 }).remainingMs = 0 ∧
    (⟨"work", true, 1500000, 1500000, 300000, 900000, 4, 0, 10⟩ : Pomodoro).remainingMs
      = 1500000 ∧
    (pomodoroUpdateSettings ⟨"work", true, 1500000, 1500000, 300000, 900000, 4, 0, 10⟩
        { remainingMs := some 0 }).remainingMs
      ≠ (⟨"work", true, 1500000, 1500000, 300000, 900000, 4, 0, 10⟩ : Pomodoro).remainingMs := by
  refine ⟨by decide, by decide, by decide⟩

/-- Claim C9, amended: for a patch that carries only the four configuration
fields `workMs`, `breakMs`, `longBreakMs`, `sessionsBeforeLong` (as the only
caller, the popup, sends), updateSettings merges those and leaves `mode`,
`isRunning`, `remainingMs`, `sessionsCompleted` and `lastUpdated` unchanged;
a patch carrying any other field changes that field too. -/
theorem pomodoro_updateSettings_frame (s : Pomodoro) (p : PomodoroPatch)
    (hm : p.mode = none) (hr : p.isRunning = none) (hrem : p.remainingMs = none)
    (hsc : p.sessionsCompleted = none) (hlu : p.lastUpdated = none) :
    (pomodoroUpdateSettings s p).mode = s.mode ∧
    (pomodoroUpdateSettings s p).isRunning = s.isRunning ∧
    (pomodoroUpdateSettings s p).remainingMs = s.remainingMs ∧
    (pomodoroUpdateSettings s p).sessionsCompleted = s.sessionsCompleted ∧
    (pomodoroUpdateSettings s p).lastUpdated = s.lastUpdated ∧
    (pomodoroUpdateSettings s p).workMs = p.workMs.getD s.workMs ∧
    (pomodoroUpdateSettings s p).breakMs = p.breakMs.getD s.breakMs ∧
    (pomodoroUpdateSettings s p).longBreakMs = p.longBreakMs.getD s.longBreakMs ∧
    (pomodoroUpdateSettings s p).sessionsBeforeLong
      = p.sessionsBeforeLong.getD s.sessionsBeforeLong := by
  simp [pomodoroUpdateSettings, hm, hr, hrem, hsc, hlu]

/-- Witness for `pomodoro_updateSettings_frame`: a popup-style patch of the
four configuration fields leaves the countdown untouched. -/
theorem pomodoro_updateSettings_frame_witness :
    (pomodoroUpdateSettings ⟨"work", true, 1234, 1500000, 300000, 900000, 4, 2, 10⟩
        { workMs := some 3000000, breakMs := some 600000,
          longBreakMs := some 1200000, sessionsBeforeLong := some 3 }).remainingMs
      = 1234 ∧
    (pomodoroUpdateSettings ⟨"work", true, 1234, 1500000, 300000, 900000, 4, 2, 10⟩
        { workMs := some 3000000, breakMs := some 600000,
          longBreakMs := some 1200000, sessionsBeforeLong := some 3 }).workMs
      = (some (3000000 : Int)).getD 1500000 := by
  have h := pomodoro_updateSettings_frame
    ⟨"work", true, 1234, 1500000, 300000, 900000, 4, 2, 10⟩
    { workMs := some 3000000, breakMs := some 600000,
      longBreakMs := some 1200000, sessionsBeforeLong := some 3 }
    rfl rfl rfl rfl rfl
  exact ⟨h.2.2.1, h.2.2.2.2.2.1⟩

end BrowserTracker
